import Mathlib

/-!
Shallow embedding of the adaptive 3D-rendering quality controller of the
ynz3d repository: the capability assessor (`assessDeviceCapabilities`,
`getModelPath` in `src/utils/deviceDetection.js`), the asset cache / memory
manager (`src/utils/modelMemoryManager.js`), the runtime performance
monitor (`shouldRecommendQualityDowngrade` in the performance-monitor
module), and the automatic quality step-down paths
(`handlePoorPerformance` in the animation optimizer, `handleLoadingError`
and the FPS watchdog in the LOD manager).

JavaScript strings denoting quality levels, GPU tiers, priorities and
network classes are embedded as inductive types; numeric quantities
(memory megabytes, timestamps) as `ℚ` / `ℤ`; JS `null`/`undefined` results
as `Option`.
-/

namespace Ynz3d

/-- The model quality levels `'none' | 'ultra-low' | 'low' | 'medium' | 'high'`
used throughout `deviceDetection.js`.  `qnone` embeds the string `'none'`. -/
inductive Quality where
  | qnone
  | ultraLow
  | low
  | medium
  | high
deriving DecidableEq, Repr

/-- GPU tier strings produced by `getWebGLCapabilities` / `assessGPUTier`:
`'NONE'` when WebGL is unavailable, otherwise `'LOW' | 'MEDIUM' | 'HIGH'`. -/
inductive GPUTier where
  | NONE
  | LOW
  | MEDIUM
  | HIGH
deriving DecidableEq, Repr

/-- Network quality strings produced by `getNetworkQuality`:
`'SLOW' | 'MEDIUM' | 'FAST' | 'UNKNOWN'`. -/
inductive NetworkQuality where
  | SLOW
  | MEDIUM
  | FAST
  | UNKNOWN
deriving DecidableEq, Repr

/-- The part of the `getWebGLCapabilities()` result that
`assessDeviceCapabilities` consults: the `supported` flag and the GPU
`tier`.  When `!gl`, the probe returns `{ supported: false, tier: 'NONE' }`. -/
structure WebGLInfo where
  supported : Bool
  tier : GPUTier
deriving DecidableEq, Repr

/-- The quality recommendation computed by `assessDeviceCapabilities`
before the slow-network adjustment (`deviceDetection.js`, the
`let recommendedQuality = 'high'` block): unsupported WebGL yields
`'none'`; mobile devices get `'medium'`/`'low'`/`'ultra-low'` from GPU tier
and memory; desktops map GPU tier directly. -/
def baseRecommendedQuality (webgl : WebGLInfo) (isMobile : Bool)
    (memoryEstimate : ℚ) : Quality :=
  if !webgl.supported then
    Quality.qnone
  else if isMobile then
    if webgl.tier = GPUTier.HIGH ∧ memoryEstimate > 3000 then
      Quality.medium
    else if webgl.tier = GPUTier.MEDIUM ∨ memoryEstimate > 2000 then
      Quality.low
    else
      Quality.ultraLow
  else
    if webgl.tier = GPUTier.HIGH then
      Quality.high
    else if webgl.tier = GPUTier.MEDIUM then
      Quality.medium
    else
      Quality.low

/-- Index of a quality level in the array
`['none', 'ultra-low', 'low', 'medium', 'high']` used by the slow-network
adjustment (`qualityLevels.indexOf(recommendedQuality)`). -/
def qualityIndex : Quality → Nat
  | Quality.qnone => 0
  | Quality.ultraLow => 1
  | Quality.low => 2
  | Quality.medium => 3
  | Quality.high => 4

/-- Inverse lookup `qualityLevels[i]` in
`['none', 'ultra-low', 'low', 'medium', 'high']` (total on the indices the
code actually reads). -/
def qualityOfIndex : Nat → Quality
  | 0 => Quality.qnone
  | 1 => Quality.ultraLow
  | 2 => Quality.low
  | 3 => Quality.medium
  | _ => Quality.high

/-- `assessDeviceCapabilities` recommendation including the slow-network
adjustment: when `networkInfo.quality === 'SLOW'` and
`currentIndex > 1`, the level is replaced by `qualityLevels[currentIndex - 1]`. -/
def assessRecommendedQuality (webgl : WebGLInfo) (isMobile : Bool)
    (memoryEstimate : ℚ) (network : NetworkQuality) : Quality :=
  let q := baseRecommendedQuality webgl isMobile memoryEstimate
  if network = NetworkQuality.SLOW ∧ qualityIndex q > 1 then
    qualityOfIndex (qualityIndex q - 1)
  else
    q

/-- The static `modelPaths` table inside `getModelPath`
(`deviceDetection.js`): `'none'` is mapped to `null` (embedded as
`Option.none`); the other levels to their `.glb` paths. -/
def modelPathTable : Quality → Option String
  | Quality.qnone => none
  | Quality.ultraLow => some "/models/optimized/ynz-ultra-low.glb"
  | Quality.low => some "/models/optimized/ynz-low.glb"
  | Quality.medium => some "/models/optimized/ynz-medium.glb"
  | Quality.high => some "/models/optimized/ynz-high.glb"

/-- `getModelPath(quality)` = `modelPaths[quality] || modelPaths['low']`:
a `null`/`undefined` table result (in particular the explicit
`'none': null` entry) is falsy, so the `||` falls through to the `'low'`
path. -/
def getModelPath (quality : Quality) : Option String :=
  match modelPathTable quality with
  | some p => some p
  | none => modelPathTable Quality.low

/-- Modelled from the spec: the slow-network adjustment as §4.1/§8 word it —
"recommended tier is exactly one step below the network-agnostic
recommendation, clamped at `ultra-low`" (the sentinel `none` likewise
unchanged).  Used only to compare the source's `assessRecommendedQuality`
against the spec's wording. -/
def specSlowStepDown : Quality → Quality
  | Quality.qnone => Quality.qnone
  | Quality.ultraLow => Quality.ultraLow
  | Quality.low => Quality.ultraLow
  | Quality.medium => Quality.low
  | Quality.high => Quality.medium

/-- Cache-entry priority strings `'low' | 'normal' | 'high'` used by
`loadModelProgressive` / `performMemoryCleanup`. -/
inductive Priority where
  | low
  | normal
  | high
deriving DecidableEq, Repr

/-- The `priorityOrder = { high: 3, normal: 2, low: 1 }` table inside the
eviction comparator of `performMemoryCleanup`. -/
def priorityOrder : Priority → Int
  | Priority.high => 3
  | Priority.normal => 2
  | Priority.low => 1

/-- One entry of `this.loadedModels` (`modelMemoryManager.js`,
`loadModelInternal`): the fields the cleanup and statistics logic reads.
`memoryUsage` is in MB; `lastAccessed` is a `Date.now()` timestamp. -/
structure CacheEntry where
  memoryUsage : ℚ
  lastAccessed : ℤ
  priority : Priority
deriving DecidableEq, Repr

/-- The comparator passed to `.sort` in `performMemoryCleanup`:
differing priorities compare by
`priorityOrder[modelB.priority] - priorityOrder[modelA.priority]`,
equal priorities by `modelA.lastAccessed - modelB.lastAccessed`. -/
def evictionCompare (a b : CacheEntry) : Int :=
  if a.priority ≠ b.priority then
    priorityOrder b.priority - priorityOrder a.priority
  else
    a.lastAccessed - b.lastAccessed

/-- Stable insertion step: `x` is placed after every already-placed `y`
that the comparator does not order strictly after `x`
(`evictionCompare y x ≤ 0`), matching the stable order mandated for
`Array.prototype.sort`. -/
def insertSorted (x : String × CacheEntry) :
    List (String × CacheEntry) → List (String × CacheEntry)
  | [] => [x]
  | y :: ys =>
    if evictionCompare y.2 x.2 ≤ 0 then y :: insertSorted x ys
    else x :: y :: ys

/-- Stable sort of the cache entries by `evictionCompare`, processing the
map's insertion order left to right — the result of
`Array.from(this.loadedModels.entries()).sort(...)`. -/
def sortModels (models : List (String × CacheEntry)) :
    List (String × CacheEntry) :=
  models.foldl (fun acc x => insertSorted x acc) []

/-- `getCurrentMemoryUsage()`: the sum of `model.memoryUsage` over the
resident entries. -/
def getCurrentMemoryUsage : List (String × CacheEntry) → ℚ
  | [] => 0
  | m :: rest => m.2.memoryUsage + getCurrentMemoryUsage rest

/-- The removal loop of `performMemoryCleanup`: walk the sorted list,
stopping as soon as `currentUsage <= targetUsage`, deleting the entry and
subtracting its `memoryUsage` otherwise.  Returns the deleted keys in
deletion order. -/
def cleanupRemovals (targetUsage : ℚ) :
    List (String × CacheEntry) → ℚ → List String
  | [], _ => []
  | (p, e) :: rest, currentUsage =>
    if currentUsage ≤ targetUsage then []
    else p :: cleanupRemovals targetUsage rest (currentUsage - e.memoryUsage)

/-- JS `Math.round(x)` = `⌊x + 1/2⌋` (round half toward positive
infinity), as a function on `ℚ`. -/
def jsRound (x : ℚ) : ℤ := Int.floor (x + 1/2)

/-- `Math.round(estimatedMemoryMB * 100) / 100` — the two-decimal rounding
`updateMemoryUsage` applies before storing `estimatedMemoryMB`. -/
def round2 (x : ℚ) : ℚ := (jsRound (x * 100) : ℚ) / 100

/-- The mutable state of `ModelMemoryManager` that the cache claims range
over: the `loadedModels` map in insertion order, the stored
`memoryUsage.estimatedMemoryMB` statistic, and the `maxCacheSize` budget. -/
structure MMCache where
  loadedModels : List (String × CacheEntry)
  estimatedMemoryMB : ℚ
  maxCacheSize : ℚ
deriving DecidableEq, Repr

/-- `updateMemoryUsage()` restricted to the memory statistic: recompute
`estimatedMemoryMB` as `Math.round(sum * 100) / 100` over the resident
entries. -/
def updateMemoryUsage (s : MMCache) : MMCache :=
  { s with estimatedMemoryMB := round2 (getCurrentMemoryUsage s.loadedModels) }

/-- `performMemoryCleanup()`: sort by the eviction comparator, delete
entries until usage falls to `maxCacheSize * 0.6`, then call
`updateMemoryUsage`. -/
def performMemoryCleanup (s : MMCache) : MMCache :=
  let sorted := sortModels s.loadedModels
  let targetUsage := s.maxCacheSize * (6/10)
  let removed := cleanupRemovals targetUsage sorted
      (getCurrentMemoryUsage s.loadedModels)
  updateMemoryUsage
    { s with loadedModels :=
        s.loadedModels.filter (fun m => ¬ removed.contains m.1) }

/-- The keys deleted by one `performMemoryCleanup()` call, in deletion
order (the `console.log('Cleaned up model: ...')` order). -/
def performMemoryCleanupRemoved (s : MMCache) : List String :=
  cleanupRemovals (s.maxCacheSize * (6/10)) (sortModels s.loadedModels)
    (getCurrentMemoryUsage s.loadedModels)

/-- `Map.prototype.set` on the insertion-ordered association list: an
existing key is overwritten in place, a new key is appended. -/
def mapSet (models : List (String × CacheEntry)) (path : String)
    (e : CacheEntry) : List (String × CacheEntry) :=
  if models.any (fun m => m.1 = path) then
    models.map (fun m => if m.1 = path then (path, e) else m)
  else
    models ++ [(path, e)]

/-- One observable cache operation of §4.3: a completed
`loadModelProgressive(path, ...)` whose internal load produced the given
entry, or a `performMemoryCleanup()` pass (the eviction entry point). -/
inductive CacheOp where
  | load (path : String) (e : CacheEntry)
  | evict
deriving Repr

/-- `ensureMemoryAvailable()`: cleanup runs when
`currentUsage > maxCacheSize * 0.8`. -/
def ensureMemoryAvailable (s : MMCache) : MMCache :=
  if getCurrentMemoryUsage s.loadedModels > s.maxCacheSize * (8/10) then
    performMemoryCleanup s
  else
    s

/-- Apply one cache operation.  A `load` of a resident path only refreshes
`lastAccessed` (the early return of `loadModelProgressive`); otherwise
`loadModelInternal` runs `ensureMemoryAvailable`, inserts the entry with
`loadedModels.set`, and calls `updateMemoryUsage`. -/
def applyCacheOp (s : MMCache) : CacheOp → MMCache
  | CacheOp.load path e =>
    if s.loadedModels.any (fun m => m.1 = path) then
      { s with loadedModels :=
          s.loadedModels.map (fun m =>
            if m.1 = path then (m.1, { m.2 with lastAccessed := e.lastAccessed })
            else m) }
    else
      let s1 := ensureMemoryAvailable s
      updateMemoryUsage { s1 with loadedModels := mapSet s1.loadedModels path e }
  | CacheOp.evict => performMemoryCleanup s

/-- Run a finite sequence of cache operations. -/
def runCacheOps (s : MMCache) (ops : List CacheOp) : MMCache :=
  ops.foldl applyCacheOp s

/-- The constructor state of `ModelMemoryManager`: empty `loadedModels`,
`estimatedMemoryMB: 0`. -/
def initCache (maxCacheSize : ℚ) : MMCache :=
  { loadedModels := [], estimatedMemoryMB := 0, maxCacheSize := maxCacheSize }

/-- The fields of `getMemoryStats()` that the invariant claims read: the
spread `...this.memoryUsage` exposes the stored `estimatedMemoryMB`
unchanged, alongside `maxCacheSize`, `cacheUtilization` and the entry
count. -/
structure MemoryStats where
  estimatedMemoryMB : ℚ
  maxCacheSize : ℚ
  cacheUtilization : ℚ
  loadedModelsCount : ℕ
deriving DecidableEq, Repr

/-- `getMemoryStats()`. -/
def getMemoryStats (s : MMCache) : MemoryStats :=
  { estimatedMemoryMB := s.estimatedMemoryMB
    maxCacheSize := s.maxCacheSize
    cacheUtilization := s.estimatedMemoryMB / s.maxCacheSize * 100
    loadedModelsCount := s.loadedModels.length }

/-- The loading bookkeeping of `ModelMemoryManager` relevant to load
de-duplication: the resident paths (`loadedModels` keys), the in-flight
`loadingPromises` map (path to the identity of the shared promise), a
counter of promise identities handed out, and the number of underlying
fetches (`loadModelInternal` invocations) started so far. -/
structure LoadState where
  loadedPaths : List String
  loadingPromises : List (String × ℕ)
  nextPromiseId : ℕ
  fetchCount : ℕ
deriving DecidableEq, Repr

/-- What a `loadModelProgressive` call hands back synchronously: the cached
data of a resident entry, or an in-flight promise (identified by the
promise identity it shares). -/
inductive LoadResult where
  | cached
  | promise (id : ℕ)
deriving DecidableEq, Repr

/-- First value bound to `path` in `loadingPromises`. -/
def lookupPromise (path : String) : List (String × ℕ) → Option ℕ
  | [] => none
  | (p, id) :: rest => if p = path then some id else lookupPromise path rest

/-- The synchronous prefix of `loadModelProgressive(modelPath, ...)`:
resident paths return the cached data; a path with an entry in
`loadingPromises` returns that same promise without a new fetch; otherwise
`loadModelInternal` is invoked (one underlying fetch) and its promise is
stored in `loadingPromises`. -/
def loadModelProgressiveStart (path : String) (s : LoadState) :
    LoadResult × LoadState :=
  if s.loadedPaths.contains path then
    (LoadResult.cached, s)
  else
    match lookupPromise path s.loadingPromises with
    | some id => (LoadResult.promise id, s)
    | none =>
      (LoadResult.promise s.nextPromiseId,
        { s with
            loadingPromises := s.loadingPromises ++ [(path, s.nextPromiseId)]
            nextPromiseId := s.nextPromiseId + 1
            fetchCount := s.fetchCount + 1 })

/-- The `currentMemory` record consulted by
`shouldRecommendQualityDowngrade`: optional `modelMemory.estimatedMemoryMB`
and `browserMemory.used` components (each `|| 0` when absent). -/
structure MemorySample where
  modelMemoryMB : Option ℚ
  browserMemoryUsed : Option ℚ
deriving DecidableEq, Repr

/-- The performance snapshot built by `getCurrentPerformanceSnapshot`:
average render time, average FPS and the latest memory sample (absent when
no memory data was collected). -/
structure PerformanceSnapshot where
  avgRenderTime : ℚ
  avgFPS : ℚ
  currentMemory : Option MemorySample
deriving DecidableEq, Repr

/-- The tier-specific thresholds of `calculateThresholds`. -/
structure Thresholds where
  minFPS : ℚ
  maxRenderTime : ℚ
  maxMemoryMB : ℚ
deriving DecidableEq, Repr

/-- `shouldRecommendQualityDowngrade(performanceSnapshot)`: count the
breaching indicators (`avgRenderTime > maxRenderTime * 1.2`,
`avgFPS < minFPS * 0.8`, and — when a memory sample exists —
`totalMemory > maxMemoryMB * 1.1`), and recommend only when
`issues >= 2`. -/
def shouldRecommendQualityDowngrade (th : Thresholds)
    (ps : PerformanceSnapshot) : Bool :=
  let issues : ℕ := 0
  let issues := if ps.avgRenderTime > th.maxRenderTime * (12/10)
    then issues + 1 else issues
  let issues := if ps.avgFPS < th.minFPS * (8/10)
    then issues + 1 else issues
  let issues :=
    match ps.currentMemory with
    | some cm =>
      let totalMemory := cm.modelMemoryMB.getD 0 + cm.browserMemoryUsed.getD 0
      if totalMemory > th.maxMemoryMB * (11/10) then issues + 1 else issues
    | none => issues
  decide (issues ≥ 2)

/-- The render-time indicator of `shouldRecommendQualityDowngrade` breaches. -/
def renderTimeBreach (th : Thresholds) (ps : PerformanceSnapshot) : Prop :=
  ps.avgRenderTime > th.maxRenderTime * (12/10)

/-- The FPS indicator of `shouldRecommendQualityDowngrade` breaches. -/
def fpsBreach (th : Thresholds) (ps : PerformanceSnapshot) : Prop :=
  ps.avgFPS < th.minFPS * (8/10)

/-- The memory indicator of `shouldRecommendQualityDowngrade` breaches
(requires a memory sample to be present). -/
def memoryBreach (th : Thresholds) (ps : PerformanceSnapshot) : Prop :=
  ∃ cm, ps.currentMemory = some cm ∧
    cm.modelMemoryMB.getD 0 + cm.browserMemoryUsed.getD 0 >
      th.maxMemoryMB * (11/10)

instance (th : Thresholds) (ps : PerformanceSnapshot) :
    Decidable (renderTimeBreach th ps) := by
  unfold renderTimeBreach; infer_instance

instance (th : Thresholds) (ps : PerformanceSnapshot) :
    Decidable (fpsBreach th ps) := by
  unfold fpsBreach; infer_instance

instance (th : Thresholds) (ps : PerformanceSnapshot) :
    Decidable (memoryBreach th ps) := by
  unfold memoryBreach
  match h : ps.currentMemory with
  | some cm =>
    exact decidable_of_iff
      (cm.modelMemoryMB.getD 0 + cm.browserMemoryUsed.getD 0 >
        th.maxMemoryMB * (11/10))
      (by constructor
          · intro hgt; exact ⟨cm, rfl, hgt⟩
          · rintro ⟨cm2, hcm2, hgt⟩
            have hcc : cm2 = cm := (Option.some.inj hcm2).symm
            rwa [hcc] at hgt)
  | none =>
    exact Decidable.isFalse (by
      rintro ⟨cm, hcm, _⟩
      exact Option.noConfusion hcm)

/-- `indexOf` in the downgrade array
`['high', 'medium', 'low', 'ultra-low']` shared by `handlePoorPerformance`
(animation optimizer), `handleLoadingError` and the FPS watchdog (LOD
manager); `'none'` is not in the array, so `indexOf` yields `-1`. -/
def downgradeIndex : Quality → Int
  | Quality.high => 0
  | Quality.medium => 1
  | Quality.low => 2
  | Quality.ultraLow => 3
  | Quality.qnone => -1

/-- Array read `qualityLevels[i]` on `['high', 'medium', 'low', 'ultra-low']`
(total on the indices the code actually reads: `0..3`). -/
def downgradeLevelAt : Int → Quality
  | 0 => Quality.high
  | 1 => Quality.medium
  | 2 => Quality.low
  | _ => Quality.ultraLow

/-- `handlePoorPerformance()` (animation optimizer) and the FPS-watchdog
downgrade in `OptimizedModelLoader`: when
`currentIndex < qualityLevels.length - 1`, the quality becomes
`qualityLevels[currentIndex + 1]`, else it is left unchanged. -/
def handlePoorPerformanceStep (q : Quality) : Quality :=
  if downgradeIndex q < 3 then downgradeLevelAt (downgradeIndex q + 1) else q

/-- The fallback-quality computation of `handleLoadingError`
(`OptimizedModelLoader`): `qualityLevels[Math.min(currentIndex + 1, 3)]`. -/
def handleLoadingErrorStep (q : Quality) : Quality :=
  downgradeLevelAt (min (downgradeIndex q + 1) 3)

/-- Rank of a quality level in the tier order with the sentinel `none`
below every loadable tier: `none < ultra-low < low < medium < high`. -/
def tierRank : Quality → ℕ
  | Quality.qnone => 0
  | Quality.ultraLow => 1
  | Quality.low => 2
  | Quality.medium => 3
  | Quality.high => 4

/-- The per-quality compression settings of
`ModelMemoryManager.getCompressionSettings`. -/
structure CompressionSettings where
  textureCompressionRatio : ℚ
  geometryOptimization : Bool
  materialSimplification : Bool
  enableDraco : Bool
deriving DecidableEq, Repr

/-- The four-key object literal inside `getCompressionSettings`; any other
quality (in particular `'none'`) reads as `undefined`, embedded as
`Option.none`. -/
def compressionTable : Quality → Option CompressionSettings
  | Quality.ultraLow =>
    some { textureCompressionRatio := 1/4, geometryOptimization := true,
           materialSimplification := true, enableDraco := false }
  | Quality.low =>
    some { textureCompressionRatio := 1/2, geometryOptimization := true,
           materialSimplification := true, enableDraco := true }
  | Quality.medium =>
    some { textureCompressionRatio := 3/4, geometryOptimization := false,
           materialSimplification := false, enableDraco := true }
  | Quality.high =>
    some { textureCompressionRatio := 1, geometryOptimization := false,
           materialSimplification := false, enableDraco := true }
  | Quality.qnone => none

/-- Fuel-indexed semantics of `getCompressionSettings()` for a fixed
`recommendedQuality`.  The outer `Option` is `none` when the computation
does not finish within the given call depth; `some v` means it returns
the JS value `v` (`some s` a settings record, `none` the JS `undefined`).
A table hit returns that record; a table miss evaluates
`this.getCompressionSettings()['low']` — the recursive call at the same
quality, then a `['low']` property read on its result, which on any
settings record yields `undefined`. -/
def getCompressionSettingsFuel :
    ℕ → Quality → Option (Option CompressionSettings)
  | 0, _ => none
  | Nat.succ fuel, q =>
    match compressionTable q with
    | some s => some (some s)
    | none => (getCompressionSettingsFuel fuel q).map (fun _ => none)

/-! ## Theorems -/

/-- Cache state with three equally stale 30 MB entries inserted with
priorities `low`, `high`, `normal`, under a 100 MB budget (so one entry
must be evicted to reach the 60 % target). -/
def c1State : MMCache :=
  { loadedModels :=
      [("a", { memoryUsage := 30, lastAccessed := 1000, priority := Priority.low }),
       ("b", { memoryUsage := 30, lastAccessed := 1000, priority := Priority.high }),
       ("c", { memoryUsage := 30, lastAccessed := 1000, priority := Priority.normal })]
    estimatedMemoryMB := 90
    maxCacheSize := 100 }

/-- C1: on entries with equal staleness and priorities `[low, high, normal]`,
`performMemoryCleanup` deletes the `high`-priority entry `"b"` first — the
comparator `priorityOrder[modelB.priority] - priorityOrder[modelA.priority]`
sorts priority descending, so eviction removes high-priority entries
before low-priority ones, the opposite of the documented
`(priority ascending, lastAccessed ascending)` order. -/
theorem C1_eviction_removes_high_priority_entry_first :
    performMemoryCleanupRemoved c1State = ["b"] ∧
    (performMemoryCleanup c1State).loadedModels.map Prod.fst = ["a", "c"] := by
  constructor <;>
    norm_num [performMemoryCleanupRemoved, performMemoryCleanup, sortModels,
      insertSorted, evictionCompare, priorityOrder, cleanupRemovals,
      getCurrentMemoryUsage, updateMemoryUsage, c1State, List.foldl,
      List.filter, List.map]

/-- Refreshing `lastAccessed` of one entry leaves the summed
`memoryUsage` unchanged. -/
theorem getCurrentMemoryUsage_touch (models : List (String × CacheEntry))
    (path : String) (t : ℤ) :
    getCurrentMemoryUsage (models.map (fun m =>
      if m.1 = path then (m.1, { m.2 with lastAccessed := t }) else m))
      = getCurrentMemoryUsage models := by
  induction models with
  | nil => rfl
  | cons m rest ih =>
    by_cases h : m.1 = path <;>
      simp [getCurrentMemoryUsage, h, ih]

/-- After `updateMemoryUsage`, the stored statistic is the two-decimal
rounding of the resident sum. -/
theorem updateMemoryUsage_inv (s : MMCache) :
    (updateMemoryUsage s).estimatedMemoryMB
      = round2 (getCurrentMemoryUsage (updateMemoryUsage s).loadedModels) := by
  simp [updateMemoryUsage]

/-- Each cache operation re-establishes the rounded-statistic invariant. -/
theorem applyCacheOp_inv (s : MMCache) (op : CacheOp)
    (h : s.estimatedMemoryMB = round2 (getCurrentMemoryUsage s.loadedModels)) :
    (applyCacheOp s op).estimatedMemoryMB
      = round2 (getCurrentMemoryUsage (applyCacheOp s op).loadedModels) := by
  cases op with
  | evict =>
    simpa [applyCacheOp, performMemoryCleanup]
      using updateMemoryUsage_inv _
  | load path e =>
    by_cases hres : s.loadedModels.any (fun m => m.1 = path)
    · simpa [applyCacheOp, hres, getCurrentMemoryUsage_touch] using h
    · simpa [applyCacheOp, hres] using updateMemoryUsage_inv _

/-- Running any operation sequence from an invariant state preserves the
rounded-statistic invariant. -/
theorem runCacheOps_inv (ops : List CacheOp) (s : MMCache)
    (h : s.estimatedMemoryMB = round2 (getCurrentMemoryUsage s.loadedModels)) :
    (runCacheOps s ops).estimatedMemoryMB
      = round2 (getCurrentMemoryUsage (runCacheOps s ops).loadedModels) := by
  induction ops generalizing s with
  | nil => exact h
  | cons op rest ih =>
    exact ih (applyCacheOp s op) (applyCacheOp_inv s op h)

/-- C2 (counterexample): after a single `load` of an entry whose
`memoryUsage` is `1/400` MB, the resident sum is `1/400` but
`getMemoryStats` reports `estimatedMemoryMB = 0`
(`Math.round(0.25)/100 = 0`): the reported total is not exactly the sum. -/
theorem C2_stats_not_exact_counterexample :
    (getMemoryStats (runCacheOps (initCache 200)
        [CacheOp.load "m"
          { memoryUsage := 1/400, lastAccessed := 0,
            priority := Priority.normal }])).estimatedMemoryMB
      ≠ getCurrentMemoryUsage (runCacheOps (initCache 200)
          [CacheOp.load "m"
            { memoryUsage := 1/400, lastAccessed := 0,
              priority := Priority.normal }]).loadedModels := by
  norm_num [runCacheOps, applyCacheOp, initCache, ensureMemoryAvailable,
    getCurrentMemoryUsage, getMemoryStats, updateMemoryUsage, mapSet,
    round2, jsRound, List.foldl]

/-- C2 (amended): after any finite sequence of load and evict operations
starting from the constructor state, the `estimatedMemoryMB` /
`totalMemoryMB` value reported by `getMemoryStats` equals the sum of the
resident entries' `memoryUsage` rounded to two decimals
(`Math.round(sum * 100) / 100`), not the exact sum. -/
theorem C2_stats_equals_rounded_sum (maxSize : ℚ) (ops : List CacheOp) :
    (getMemoryStats (runCacheOps (initCache maxSize) ops)).estimatedMemoryMB
      = round2 (getCurrentMemoryUsage
          (runCacheOps (initCache maxSize) ops).loadedModels) := by
  have h0 : (initCache maxSize).estimatedMemoryMB
      = round2 (getCurrentMemoryUsage (initCache maxSize).loadedModels) := by
    norm_num [initCache, getCurrentMemoryUsage, round2, jsRound]
  simpa [getMemoryStats] using runCacheOps_inv ops (initCache maxSize) h0

/-- C3: a device whose WebGL probe fails (`{ supported: false, tier: 'NONE' }`)
is assessed at the sentinel `'none'` tier for every mobile flag, memory
estimate and network class — but `getModelPath('none')` yields the
`'low'`-tier asset path `'/models/optimized/ynz-low.glb'` rather than no
asset: the explicit `'none': null` table entry is falsy, so
`modelPaths[quality] || modelPaths['low']` absorbs it into the `low` path
and a load is attempted for it. -/
theorem C3_none_tier_gets_low_asset_path (isMobile : Bool)
    (memoryEstimate : ℚ) (network : NetworkQuality) :
    assessRecommendedQuality ⟨false, GPUTier.NONE⟩ isMobile memoryEstimate
        network = Quality.qnone ∧
    getModelPath Quality.qnone = some "/models/optimized/ynz-low.glb" := by
  refine ⟨?_, rfl⟩
  simp [assessRecommendedQuality, baseRecommendedQuality, qualityIndex]

/-- C4 (counterexample): a mobile device with GPU tier `HIGH`, estimated
memory exactly `3000` MB and a fast network is recommended `'low'`, not
`'medium'`: the code tests `memoryEstimate > 3000` strictly, so the
boundary value `3000` falls through to the
`tier === 'MEDIUM' || memoryEstimate > 2000` branch. -/
theorem C4_mobile_high_memory_3000_counterexample :
    assessRecommendedQuality ⟨true, GPUTier.HIGH⟩ true 3000
        NetworkQuality.FAST = Quality.low ∧
    Quality.low ≠ Quality.medium := by
  constructor <;> decide

/-- C4 (amended): for every mobile assessment with GPU tier `HIGH`,
estimated memory strictly greater than `3000` MB and a non-slow network,
the recommended quality is exactly `'medium'` — the mobile cap applies
even to high-end mobile hardware. -/
theorem C4_mobile_cap_medium (memoryEstimate : ℚ) (network : NetworkQuality)
    (hmem : memoryEstimate > 3000) (hnet : network ≠ NetworkQuality.SLOW) :
    assessRecommendedQuality ⟨true, GPUTier.HIGH⟩ true memoryEstimate network
      = Quality.medium := by
  simp [assessRecommendedQuality, baseRecommendedQuality, hmem, hnet,
    qualityIndex]

/-- Witness for `C4_mobile_cap_medium` at memory `4096` MB on a fast
network. -/
theorem C4_mobile_cap_medium_witness :
    (4096 : ℚ) > 3000 ∧ NetworkQuality.FAST ≠ NetworkQuality.SLOW ∧
    assessRecommendedQuality ⟨true, GPUTier.HIGH⟩ true 4096
        NetworkQuality.FAST = Quality.medium :=
  ⟨by norm_num, by decide,
    C4_mobile_cap_medium 4096 NetworkQuality.FAST (by norm_num) (by decide)⟩

/-- C5 (counterexample): a desktop device with GPU tier `LOW` on a slow
network is recommended `'ultra-low'`, not `'low'`: the slow-network
adjustment steps the desktop `LOW → 'low'` mapping down one level, so the
recommendation is not independent of the network classification. -/
theorem C5_desktop_low_slow_counterexample :
    assessRecommendedQuality ⟨true, GPUTier.LOW⟩ false 8192
        NetworkQuality.SLOW = Quality.ultraLow ∧
    Quality.ultraLow ≠ Quality.low := by
  constructor <;> decide

/-- C5 (amended): for every desktop assessment with GPU tier `LOW` and a
non-slow network, the recommended quality is `'low'` regardless of the
memory estimate; on a slow network the slow-network step-down lowers it
to `'ultra-low'` instead. -/
theorem C5_desktop_low_maps_low (memoryEstimate : ℚ)
    (network : NetworkQuality) (hnet : network ≠ NetworkQuality.SLOW) :
    assessRecommendedQuality ⟨true, GPUTier.LOW⟩ false memoryEstimate network
      = Quality.low := by
  simp [assessRecommendedQuality, baseRecommendedQuality, hnet, qualityIndex]

/-- Witness for `C5_desktop_low_maps_low` at memory `8192` MB on an
unknown network. -/
theorem C5_desktop_low_maps_low_witness :
    NetworkQuality.UNKNOWN ≠ NetworkQuality.SLOW ∧
    assessRecommendedQuality ⟨true, GPUTier.LOW⟩ false 8192
        NetworkQuality.UNKNOWN = Quality.low :=
  ⟨by decide, C5_desktop_low_maps_low 8192 NetworkQuality.UNKNOWN (by decide)⟩

/-- With a non-slow network, the recommendation is the network-agnostic
base recommendation. -/
theorem assess_nonslow_eq_base (webgl : WebGLInfo) (isMobile : Bool)
    (memoryEstimate : ℚ) (network : NetworkQuality)
    (hnet : network ≠ NetworkQuality.SLOW) :
    assessRecommendedQuality webgl isMobile memoryEstimate network
      = baseRecommendedQuality webgl isMobile memoryEstimate := by
  simp [assessRecommendedQuality, hnet]

/-- With a slow network, the recommendation is the base recommendation
stepped down one level, clamped at `'ultra-low'` (and `'none'` unchanged). -/
theorem assess_slow_eq_stepdown (webgl : WebGLInfo) (isMobile : Bool)
    (memoryEstimate : ℚ) :
    assessRecommendedQuality webgl isMobile memoryEstimate NetworkQuality.SLOW
      = specSlowStepDown (baseRecommendedQuality webgl isMobile memoryEstimate) := by
  rcases h : baseRecommendedQuality webgl isMobile memoryEstimate <;>
    simp [assessRecommendedQuality, h, qualityIndex, qualityOfIndex,
      specSlowStepDown]

/-- C6: for every assessment, the recommendation under a slow network is
exactly one step below the recommendation the same assessment produces
under any non-slow network, clamped at `'ultra-low'` (with the sentinel
`'none'` likewise unchanged), as computed by `specSlowStepDown`. -/
theorem C6_slow_network_one_step_below (webgl : WebGLInfo) (isMobile : Bool)
    (memoryEstimate : ℚ) (network : NetworkQuality)
    (hnet : network ≠ NetworkQuality.SLOW) :
    assessRecommendedQuality webgl isMobile memoryEstimate NetworkQuality.SLOW
      = specSlowStepDown
          (assessRecommendedQuality webgl isMobile memoryEstimate network) := by
  rw [assess_nonslow_eq_base webgl isMobile memoryEstimate network hnet]
  exact assess_slow_eq_stepdown webgl isMobile memoryEstimate

/-- Witness for `C6_slow_network_one_step_below`: a desktop `HIGH`-tier
device recommends `'high'` on a fast network and `'medium'` on a slow one. -/
theorem C6_slow_network_one_step_below_witness :
    NetworkQuality.FAST ≠ NetworkQuality.SLOW ∧
    assessRecommendedQuality ⟨true, GPUTier.HIGH⟩ false 8192
        NetworkQuality.SLOW
      = specSlowStepDown (assessRecommendedQuality ⟨true, GPUTier.HIGH⟩ false
          8192 NetworkQuality.FAST) :=
  ⟨by decide,
    C6_slow_network_one_step_below ⟨true, GPUTier.HIGH⟩ false 8192
      NetworkQuality.FAST (by decide)⟩

/-- Appending a binding for a path not yet in `loadingPromises` makes it
the binding `lookupPromise` finds. -/
theorem lookupPromise_append (promises : List (String × ℕ)) (path : String)
    (id : ℕ) (h : lookupPromise path promises = none) :
    lookupPromise path (promises ++ [(path, id)]) = some id := by
  induction promises with
  | nil => simp [lookupPromise]
  | cons b rest ih =>
    by_cases hb : b.1 = path
    · simp [lookupPromise, hb] at h
    · simp [lookupPromise, hb] at h ⊢
      exact ih h

/-- C7: from any manager state in which `path` is neither resident nor
already loading, two consecutive `loadModelProgressive(path, ...)` calls
(with the load still unresolved in between) start exactly one underlying
fetch, and the second call returns the very promise the first call
stored in `loadingPromises`. -/
theorem C7_concurrent_loads_share_one_fetch (s : LoadState) (path : String)
    (hres : s.loadedPaths.contains path = false)
    (hinflight : lookupPromise path s.loadingPromises = none) :
    (loadModelProgressiveStart path
        (loadModelProgressiveStart path s).2).2.fetchCount
      = s.fetchCount + 1 ∧
    (loadModelProgressiveStart path
        (loadModelProgressiveStart path s).2).1
      = (loadModelProgressiveStart path s).1 := by
  have hmem : path ∉ s.loadedPaths := by simpa using hres
  have h1 : loadModelProgressiveStart path s
      = (LoadResult.promise s.nextPromiseId,
          { s with
              loadingPromises := s.loadingPromises ++ [(path, s.nextPromiseId)]
              nextPromiseId := s.nextPromiseId + 1
              fetchCount := s.fetchCount + 1 }) := by
    simp [loadModelProgressiveStart, hmem, hinflight]
  rw [h1]
  simp [loadModelProgressiveStart, hmem,
    lookupPromise_append s.loadingPromises path s.nextPromiseId hinflight]

/-- Witness for `C7_concurrent_loads_share_one_fetch`: the fresh manager
state and the phoenix model path. -/
theorem C7_concurrent_loads_share_one_fetch_witness :
    (LoadState.mk [] [] 0 0).loadedPaths.contains
        "/models/optimized/phoenix-low.glb" = false ∧
    lookupPromise "/models/optimized/phoenix-low.glb"
        (LoadState.mk [] [] 0 0).loadingPromises = none ∧
    ((loadModelProgressiveStart "/models/optimized/phoenix-low.glb"
        (loadModelProgressiveStart "/models/optimized/phoenix-low.glb"
          (LoadState.mk [] [] 0 0)).2).2.fetchCount
      = (LoadState.mk [] [] 0 0).fetchCount + 1 ∧
    (loadModelProgressiveStart "/models/optimized/phoenix-low.glb"
        (loadModelProgressiveStart "/models/optimized/phoenix-low.glb"
          (LoadState.mk [] [] 0 0)).2).1
      = (loadModelProgressiveStart "/models/optimized/phoenix-low.glb"
          (LoadState.mk [] [] 0 0)).1) :=
  ⟨by decide, by decide,
    C7_concurrent_loads_share_one_fetch (LoadState.mk [] [] 0 0)
      "/models/optimized/phoenix-low.glb" (by decide) (by decide)⟩

/-- C8: `shouldRecommendQualityDowngrade` fires exactly when at least two
of the three indicators (average render time, average FPS, memory usage)
breach their thresholds; in particular a breach of any single indicator
alone never fires it. -/
theorem C8_downgrade_needs_two_indicators (th : Thresholds)
    (ps : PerformanceSnapshot) :
    shouldRecommendQualityDowngrade th ps = true ↔
      ((renderTimeBreach th ps ∧ fpsBreach th ps) ∨
       (renderTimeBreach th ps ∧ memoryBreach th ps) ∨
       (fpsBreach th ps ∧ memoryBreach th ps)) := by
  unfold shouldRecommendQualityDowngrade renderTimeBreach fpsBreach
    memoryBreach
  rcases hm : ps.currentMemory with _ | cm
  · by_cases h1 : ps.avgRenderTime > th.maxRenderTime * (12/10) <;>
    by_cases h2 : ps.avgFPS < th.minFPS * (8/10) <;>
      simp [h1, h2, hm]
  · by_cases h1 : ps.avgRenderTime > th.maxRenderTime * (12/10) <;>
    by_cases h2 : ps.avgFPS < th.minFPS * (8/10) <;>
    by_cases h3 : cm.modelMemoryMB.getD 0 + cm.browserMemoryUsed.getD 0
        > th.maxMemoryMB * (11/10) <;>
      simp [h1, h2, h3, hm]

/-- C9: in a session whose current quality is the sentinel `'none'`
(reachable whenever the WebGL probe reports unsupported), both automatic
tier-change paths — the poor-performance handler and the load-error
fallback — set the quality to `'high'`: `indexOf` yields `-1` on the
`['high', 'medium', 'low', 'ultra-low']` array, so `currentIndex + 1`
reads index `0`.  This raises the tier (`tierRank` strictly increases)
instead of moving downward, contradicting the no-automatic-upgrade rule. -/
theorem C9_none_state_step_upgrades_to_high :
    handlePoorPerformanceStep Quality.qnone = Quality.high ∧
    handleLoadingErrorStep Quality.qnone = Quality.high ∧
    tierRank Quality.qnone < tierRank (handlePoorPerformanceStep Quality.qnone) := by
  refine ⟨by decide, by decide, by decide⟩

/-- C10: for the sentinel quality `'none'` (the `recommendedQuality` the
`ModelMemoryManager` constructor receives on a device without WebGL
support), `getCompressionSettings` never returns within any call depth:
the `{...}[quality] || this.getCompressionSettings()['low']` fallback
re-invokes itself with the same unrecognized quality, so the recursion
never terminates. -/
theorem C10_compression_settings_diverge_on_none (fuel : ℕ) :
    getCompressionSettingsFuel fuel Quality.qnone = none := by
  induction fuel with
  | zero => rfl
  | succ n ih => simp [getCompressionSettingsFuel, compressionTable, ih]

end Ynz3d
